import Mathlib

/-!
Verification development for the Python Anesthesia Simulator.

Shallow embedding of the pharmacodynamic models (`pd_models.py`), the
patient orchestrator (`simulator.py`) and the disturbance profiles
(`disturbances.py`).  Real-valued drug concentrations are modelled with `ℝ`
(float arithmetic idealised as exact real arithmetic); purely discrete
bookkeeping (mode flags, input-series validation, lookup tables) is modelled
with `ℚ` so that it stays decidable.
-/

namespace PAS

noncomputable section

/-- Sigmoid `fsig` from `pd_models.py`: `x**gam/(c50**gam + x**gam)`. -/
def fsig (x c50 gam : ℝ) : ℝ := x ^ gam / (c50 ^ gam + x ^ gam)

/-! ### BIS model (`pd_models.py`, class `BIS_model`)

The mutable attributes of a `BIS_model` instance that `compute_bis` and
`inverse_hill` read or write.  `isEleveld` records `hill_model == 'Eleveld'`.
-/

structure BISParams where
  isEleveld : Bool
  c50p : ℝ
  c50r : ℝ
  gamma : ℝ
  beta : ℝ
  E0 : ℝ
  Emax : ℝ

/-- The `'Bouillon'` parameterization of `BIS_model.__init__` (no random perturbation). -/
def bouillonBIS : BISParams := ⟨false, 4.47, 19.3, 1.43, 0, 97.4, 97.4⟩

/-- The `'Vanluchene'` parameterization of `BIS_model.__init__` (no random perturbation). -/
def vanlucheneBIS : BISParams := ⟨false, 4.92, 0, 2.69, 0, 95.9, 87.5⟩

/-- The `'Eleveld'` parameterization of `BIS_model.__init__` (no random
perturbation); `c50p = 3.08*faging(-0.00635)` with `faging x = exp(x*(age-35))`. -/
def eleveldBIS (age : ℝ) : BISParams :=
  ⟨true, 3.08 * Real.exp (-0.00635 * (age - 35)), 0, 1.89, 0, 93, 93⟩

/-- Embedding of `BIS_model.compute_bis`.  Returns the updated instance
(the Eleveld branch assigns `self.gamma`) together with the returned BIS value. -/
def compute_bis_state (p : BISParams) (c_es_propo c_es_remi : ℝ) : BISParams × ℝ :=
  if p.c50r = 0 then
    let interaction := c_es_propo / p.c50p
    let p' := if p.isEleveld then
        (if c_es_propo ≤ p.c50p then { p with gamma := 1.89 } else { p with gamma := 1.47 })
      else p
    (p', p'.E0 - p'.Emax * interaction ^ p'.gamma / (1 + interaction ^ p'.gamma))
  else
    let up := c_es_propo / p.c50p
    let ur := c_es_remi / p.c50r
    let Phi := up / (up + ur + 1e-6)
    let U_50 := 1 - p.beta * (Phi - Phi ^ (2 : ℕ))
    let interaction := (up + ur) / U_50
    (p, p.E0 - p.Emax * interaction ^ p.gamma / (1 + interaction ^ p.gamma))

/-- The monic cubic `x^3 + b x^2 + c x + d` whose roots `np.roots(p)` extracts
in the interaction branch of `BIS_model.inverse_hill`. -/
def cubic (b c d x : ℝ) : ℝ := x ^ (3 : ℕ) + b * x ^ (2 : ℕ) + c * x + d

/-- Root selection of `BIS_model.inverse_hill`: the loop over `np.roots(p)`
keeps the first real positive root and otherwise leaves `real_root = 0`.
The enumeration order of `np.roots` is abstracted by a choice of some positive
real root; whenever the positive real root is unique (which is the case for
every parameterization shipped with the simulator, all of which have `beta = 0`)
this is exactly the value the code computes. -/
def first_pos_real_root (b c d : ℝ) : ℝ :=
  @dite _ (∃ x, 0 < x ∧ cubic b c d x = 0) (Classical.propDecidable _)
    (fun h => h.choose) (fun _ => 0)

/-- Coefficients `(b, c, d)` of the cubic assembled in the interaction branch
of `BIS_model.inverse_hill` (lines 300-306):
`temp = (max(0, E0-BIS)/(Emax-E0+BIS))**(1/gamma)`, `Yr = c_es_remi/c50r`,
`b = 3*Yr - temp`, `c = 3*Yr**2 - (2 - beta)*Yr*temp`, `d = Yr**3 - Yr**2*temp`. -/
def inverse_cubic_coeffs (p : BISParams) (BIS c_es_remi : ℝ) : ℝ × ℝ × ℝ :=
  let temp := (max 0 (p.E0 - BIS) / (p.Emax - p.E0 + BIS)) ^ (1 / p.gamma)
  let Yr := c_es_remi / p.c50r
  (3 * Yr - temp, 3 * Yr ^ (2 : ℕ) - (2 - p.beta) * Yr * temp,
    Yr ^ (3 : ℕ) - Yr ^ (2 : ℕ) * temp)

/-- Embedding of `BIS_model.inverse_hill`.  Returns the updated instance
(the Eleveld branch assigns `self.gamma`) together with the returned
propofol effect-site concentration. -/
def inverse_hill_state (p : BISParams) (BIS c_es_remi : ℝ) : BISParams × ℝ :=
  if p.c50r = 0 then
    let p' := if p.isEleveld then
        (if BIS ≥ p.E0 - p.Emax / 2 then { p with gamma := 1.89 } else { p with gamma := 1.47 })
      else p
    (p', p'.c50p * ((p'.E0 - BIS) / (p'.Emax - p'.E0 + BIS)) ^ (1 / p'.gamma))
  else
    let t := inverse_cubic_coeffs p BIS c_es_remi
    (p, first_pos_real_root t.1 t.2.1 t.2.2 * p.c50p)

/-- Forward-then-inverse composition on one `BIS_model` instance:
`compute_bis` followed by `inverse_hill` on the mutated instance,
exactly as `test_hill_inversion` exercises it. -/
def roundtrip (p : BISParams) (c_es_propo c_es_remi : ℝ) : ℝ :=
  let s := compute_bis_state p c_es_propo c_es_remi
  (inverse_hill_state s.1 s.2 c_es_remi).2

/-! ### TOL model (`pd_models.py`, class `TOL_model`) -/

structure TOLParams where
  c50p : ℝ
  c50r : ℝ
  gamma_p : ℝ
  gamma_r : ℝ
  pre_intensity : ℝ

/-- The `'Bouillon'` parameterization of `TOL_model.__init__` (no random perturbation). -/
def bouillonTOL : TOLParams := ⟨8.04, 1.07, 5.1, 0.97, 1.05⟩

/-- Embedding of `TOL_model.compute_tol`. -/
def compute_tol (q : TOLParams) (c_es_propo c_es_remi : ℝ) : ℝ :=
  let post_opioid := q.pre_intensity * (1 - fsig c_es_remi (q.c50r * q.pre_intensity) q.gamma_r)
  fsig c_es_propo (q.c50p * post_opioid) q.gamma_p

/-! ### Equilibrium solver (`simulator.py`, `Patient.find_equilibrium` lines 376-394)

The BIS/TOL part of `find_equilibrium` hands a box-constrained nonlinear
program to ipopt.  Only the data of that program (objective, bounds, initial
guess) is built by the simulator's own code, so that is what we embed. -/

structure BoxNLP where
  obj : ℝ × ℝ → ℝ
  lb : ℝ × ℝ
  ub : ℝ × ℝ
  x0 : ℝ × ℝ

/-- The nonlinear program constructed by `Patient.find_equilibrium`:
`J = (bis - bis_target)**2/100**2 + (tol - tol_target)**2`, `lbw = [0, 0]`,
`ubw = [50, 50]`, `w0 = [self.bis_pd.c50p, self.bis_pd.c50r/2.5]`. -/
def find_equilibrium_nlp (p : BISParams) (q : TOLParams) (bis_target tol_target : ℝ) :
    BoxNLP where
  obj := fun w =>
    ((compute_bis_state p w.1 w.2).2 - bis_target) ^ (2 : ℕ) / 100 ^ (2 : ℕ)
      + (compute_tol q w.1 w.2 - tol_target) ^ (2 : ℕ)
  lb := (0, 0)
  ub := (50, 50)
  x0 := (p.c50p, p.c50r / 2.5)

/-- The same program as §4.5 of the specification words it: identical
objective and box, but initial guess "= each drug's own C50", i.e. the point
`(c50p, c50r)` of the BIS model. -/
def spec_equilibrium_nlp (p : BISParams) (q : TOLParams) (bis_target tol_target : ℝ) :
    BoxNLP where
  obj := fun w =>
    ((compute_bis_state p w.1 w.2).2 - bis_target) ^ (2 : ℕ) / 100 ^ (2 : ℕ)
      + (compute_tol q w.1 w.2 - tol_target) ^ (2 : ℕ)
  lb := (0, 0)
  ub := (50, 50)
  x0 := (p.c50p, p.c50r)

/-! ### Mechanistic hemodynamic model (`pd_models.py`, class `Hemo_meca_PD_model`) -/

/-- The constants of `Hemo_meca_PD_model` that `output_function` reads. -/
structure HemoSuParams where
  hr_sv : ℝ
  abase_hr : ℝ

/-- Embedding of `Hemo_meca_PD_model.output_function` (lines 1098-1119). -/
def output_function (m : HemoSuParams) (x : Fin 5 → ℝ) : Fin 5 → ℝ :=
  let tpr := x 0
  let sv := x 1 + x 3
  let hr := x 2 + x 4
  let sv := sv * (1 - m.hr_sv * Real.log (hr / m.abase_hr))
  let map := tpr * sv * hr
  let co := hr * sv / 1000
  ![tpr, sv, hr, map, co]

/-! ### Patient initialization (`simulator.py`, `Patient.initialized_at_given_input`)

The PK part of `initialized_at_given_input` (lines 528-541).  The DC gains
`control.dcgain(self.<drug>_pk.continuous_sys)` of the three compartment
systems are numbers produced by the external `control` library from the PK
models, so they are carried as abstract per-patient constants. -/

structure PatientPK where
  dcgain_propo : ℝ
  dcgain_remi : ℝ
  dcgain_nore : ℝ
  propo_x : List ℝ
  remi_x : List ℝ
  nore_x : List ℝ
  u_propo_eq : ℝ
  u_remi_eq : ℝ
  u_nore_eq : ℝ
  c_blood_propo_eq : ℝ
  c_blood_remi_eq : ℝ

/-- Embedding of the PK-state part of `Patient.initialized_at_given_input`
(lines 528-541).  The second binding of `c_blood_remi_eq` mirrors line 534 of
`simulator.py`, which assigns `self.c_blood_remi_eq` a second time (from the
norepinephrine DC gain) before the remifentanil and norepinephrine states are
written.  State-vector lengths: propofol 6, remifentanil 5, norepinephrine 1. -/
def initialized_at_given_input (st : PatientPK) (u_propo u_remi u_nore : ℝ) : PatientPK :=
  let c_blood_propo_eq := u_propo * st.dcgain_propo
  let c_blood_remi_eq := u_remi * st.dcgain_remi
  let c_blood_remi_eq := u_nore * st.dcgain_nore
  { st with
    u_propo_eq := u_propo
    u_remi_eq := u_remi
    u_nore_eq := u_nore
    c_blood_propo_eq := c_blood_propo_eq
    c_blood_remi_eq := c_blood_remi_eq
    propo_x := List.replicate 6 c_blood_propo_eq
    remi_x := List.replicate 5 c_blood_remi_eq
    nore_x := List.replicate 1 c_blood_remi_eq }

/-- Concrete patient record used to evaluate the initialization code. -/
def examplePK : PatientPK :=
  { dcgain_propo := 1, dcgain_remi := 1, dcgain_nore := 1
    propo_x := [], remi_x := [], nore_x := []
    u_propo_eq := 0, u_remi_eq := 0, u_nore_eq := 0
    c_blood_propo_eq := 0, c_blood_remi_eq := 0 }

end

/-! ### Mode flags of `Hemo_meca_PD_model.one_step` (lines 1010-1011, 1132-1216)

Only the comparisons `cp_nore > 0`, `v_ratio < 1`, `v_ratio != 1` feed the
flag logic, so the inputs are modelled with `ℚ` to keep the machine decidable.
-/

structure HemoFlags where
  flag_nore_used : Bool
  flag_blood_loss : Bool
deriving DecidableEq

/-- Which of the three integration branches of `one_step` updates `x_effect`:
the norepinephrine-coupled solve, the blood-loss-coupled solve, or the plain
copy of the drug-only state. -/
inductive HemoMode where
  | plain
  | noreCoupled
  | bloodLossCoupled
deriving DecidableEq

/-- Flag values set in `Hemo_meca_PD_model.__init__` (lines 1010-1011). -/
def initHemoFlags : HemoFlags := ⟨false, false⟩

/-- One step of the flag/mode/warning logic of `Hemo_meca_PD_model.one_step`
(lines 1169-1211): returns the updated flags, the branch taken, and whether
the "norepinephrine effect is not computed with blood loss" warning prints. -/
def hemo_step (f : HemoFlags) (cp_nore vfrac : ℚ) : HemoFlags × HemoMode × Bool :=
  if (f.flag_nore_used = true ∨ 0 < cp_nore) ∧ f.flag_blood_loss = false then
    ({ f with flag_nore_used := true }, HemoMode.noreCoupled, decide (vfrac ≠ 1))
  else if (vfrac < 1 ∨ f.flag_blood_loss = true) ∧ f.flag_nore_used = false then
    ({ f with flag_blood_loss := true }, HemoMode.bloodLossCoupled, decide (0 < cp_nore))
  else
    (f, HemoMode.plain, false)

/-- Flag state before step `n` of a run whose step-`k` inputs are
`(cp_nore, v_ratio) = u k`, starting from a freshly constructed model. -/
def hemoFlagsAt (u : ℕ → ℚ × ℚ) : ℕ → HemoFlags
  | 0 => initHemoFlags
  | n + 1 => (hemo_step (hemoFlagsAt u n) (u n).1 (u n).2).1

/-- Branch taken during step `n`. -/
def hemoModeAt (u : ℕ → ℚ × ℚ) (n : ℕ) : HemoMode :=
  (hemo_step (hemoFlagsAt u n) (u n).1 (u n).2).2.1

/-- Whether step `n` prints the conflicting-request warning. -/
def hemoWarnAt (u : ℕ → ℚ × ℚ) (n : ℕ) : Bool :=
  (hemo_step (hemoFlagsAt u n) (u n).1 (u n).2).2.2

/-! ### Batch-mode input validation (`simulator.py`, `Patient.full_sim` lines 685-743) -/

inductive SimInputError where
  | noInputGiven
  | lengthMismatch
deriving DecidableEq

/-- Embedding of the input-validation prefix of `Patient.full_sim`
(lines 717-735): reject when no series is given, fill each missing series
with zeros of the length the code picks, reject unequal lengths.
`Option.getD` renders the `if ... is None:` assignments; in the inner
default for `u_propo`, `u_nore` cannot be `none` (the all-`none` case was
already rejected), so `(u_nore.getD []).length` equals `len(u_nore)`. -/
def fill_inputs (u_propo u_remi u_nore : Option (List ℚ)) :
    Except SimInputError (List ℚ × List ℚ × List ℚ) :=
  if u_propo = none ∧ u_remi = none ∧ u_nore = none then
    Except.error SimInputError.noInputGiven
  else
    let up := u_propo.getD
      (match u_remi with
       | none => List.replicate (u_nore.getD []).length 0
       | some b => List.replicate b.length 0)
    let ur := u_remi.getD (List.replicate up.length 0)
    let un := u_nore.getD (List.replicate up.length 0)
    if up.length = ur.length ∧ ur.length = un.length then Except.ok (up, ur, un)
    else Except.error SimInputError.lengthMismatch

/-- The parts of a `Patient` that `full_sim` could touch after validation:
the three PK state vectors and the recorded dataframe. -/
structure PatientSimState where
  propo_x : List ℚ
  remi_x : List ℚ
  nore_x : List ℚ
  dataframe : List (List ℚ)

/-- Embedding of `Patient.full_sim` as a state transformer: both `raise`
statements fire before `init_dataframe` and before any PK simulation call, so
on the error path the patient state is returned untouched; the simulation
performed on validated inputs is abstracted by `kernel` (it calls
`CompartmentModel.full_sim`, which is not part of the embedded sources). -/
def full_sim_model
    (kernel : PatientSimState → List ℚ × List ℚ × List ℚ → PatientSimState × List ℚ)
    (st : PatientSimState) (u_propo u_remi u_nore : Option (List ℚ)) :
    PatientSimState × Except SimInputError (List ℚ) :=
  match fill_inputs u_propo u_remi u_nore with
  | Except.error e => (st, Except.error e)
  | Except.ok t => ((kernel st t).1, Except.ok (kernel st t).2)

/-- Concrete patient-state record used by the witnesses. -/
def exampleSimState : PatientSimState := ⟨[], [], [], []⟩

/-! ### Disturbance profiles (`disturbances.py`, `compute_disturbances`)

Table times are minutes; the input time is seconds (the code interpolates at
`time/60`).  Table entries are exact rationals, so `ℚ` is used throughout. -/

/-- The supported `dist_profil` values of `compute_disturbances`. -/
inductive DistProfile where
  | realistic
  | realistic2
  | liverTransplantation
  | simple
  | step
  | null
deriving DecidableEq

/-- Embedding of `np.interp` on increasing sample points: clamped to the
first value below the first point, to the last value above the last point,
piecewise linear in between. -/
def interp1 : List (ℚ × ℚ) → ℚ → ℚ
  | [], _ => 0
  | [(_, y0)], _ => y0
  | (x0, y0) :: (x1, y1) :: rest, x =>
    if x < x0 then y0
    else if x ≤ x1 then y0 + (y1 - y0) * (x - x0) / (x1 - x0)
    else interp1 ((x1, y1) :: rest) x

/-- The `'realistic'` profile table (time, BIS, MAP, CO). -/
def realisticTable : List (ℚ × ℚ × ℚ × ℚ) := [
  (0, 0, 0, 0),
  ((99/10 : ℚ), 0, 0, 0),
  (10, 20, 10, (3/5 : ℚ)),
  (12, 20, 10, (3/5 : ℚ)),
  (13, 0, 0, 0),
  ((199/10 : ℚ), 0, 0, 0),
  ((101/5 : ℚ), 20, 10, (1/2 : ℚ)),
  (21, 20, 10, (1/2 : ℚ)),
  ((43/2 : ℚ), 0, 0, 0),
  (26, -20, -10, -(4/5 : ℚ)),
  (27, 20, 10, (9/10 : ℚ)),
  (28, 10, 7, (1/5 : ℚ)),
  (36, 10, 7, (1/5 : ℚ)),
  (37, 30, 15, (4/5 : ℚ)),
  ((75/2 : ℚ), 30, 15, (4/5 : ℚ)),
  (38, 10, 5, (1/5 : ℚ)),
  (41, 10, 5, (1/5 : ℚ)),
  ((83/2 : ℚ), 30, 10, (1/2 : ℚ)),
  (42, 30, 10, (1/2 : ℚ)),
  (43, 10, 5, (1/5 : ℚ)),
  (47, 10, 5, (1/5 : ℚ)),
  ((95/2 : ℚ), 30, 10, (9/10 : ℚ)),
  (50, 30, 8, (9/10 : ℚ)),
  (51, 10, 5, (1/5 : ℚ)),
  (56, 10, 5, (1/5 : ℚ)),
  ((113/2 : ℚ), 0, 0, 0)]

/-- The `'realistic2'` profile table (time, BIS, MAP, CO). -/
def realistic2Table : List (ℚ × ℚ × ℚ × ℚ) := [
  (0, 0, 0, 0),
  ((99/10 : ℚ), 0, 0, 0),
  (10, 20, 10, (1/2 : ℚ)),
  (15, 20, 10, (1/2 : ℚ)),
  ((151/10 : ℚ), 0, 0, 0),
  ((199/10 : ℚ), 0, 0, 0),
  (20, 20, 10, (1/2 : ℚ)),
  (25, 20, 10, (1/2 : ℚ)),
  ((251/10 : ℚ), 0, 0, 0),
  ((269/10 : ℚ), -20, -10, -(1/2 : ℚ)),
  (27, 20, 10, (1/2 : ℚ)),
  (32, 20, 10, (1/2 : ℚ)),
  ((321/10 : ℚ), 0, 0, 0),
  ((419/10 : ℚ), 0, 0, 0),
  (42, 20, 10, (1/2 : ℚ)),
  (44, 20, 10, (1/2 : ℚ)),
  ((441/10 : ℚ), 0, 0, 0),
  (50, 0, 0, 0),
  ((501/10 : ℚ), 20, 10, (1/2 : ℚ)),
  (55, 20, 10, (1/2 : ℚ)),
  ((551/10 : ℚ), 0, 0, 0),
  (75, 0, 0, 0),
  ((751/10 : ℚ), 20, 10, (1/2 : ℚ)),
  (95, 20, 10, (1/2 : ℚ)),
  ((951/10 : ℚ), 0, 0, 0),
  (100, 0, 0, 0)]

/-- The `'liverTransplantation'` profile table (time, BIS, MAP, CO). -/
def liverTable : List (ℚ × ℚ × ℚ × ℚ) := [
  (0, 0, 0, 0),
  ((99/10 : ℚ), 0, 0, 0),
  (10, 20, 10, (1/2 : ℚ)),
  (13, 20, 10, (1/2 : ℚ)),
  ((131/10 : ℚ), 0, 0, 0),
  (16, 0, 0, 0),
  ((161/10 : ℚ), 15, 8, (2/5 : ℚ)),
  (21, 15, 8, (2/5 : ℚ)),
  ((211/10 : ℚ), 20, 10, (1/2 : ℚ)),
  (27, 20, 10, (1/2 : ℚ)),
  ((271/10 : ℚ), 0, 0, 0),
  (29, 0, 0, 0),
  ((291/10 : ℚ), 5, 2, (1/10 : ℚ)),
  (37, 5, 2, (1/10 : ℚ)),
  ((371/10 : ℚ), 0, 0, 0),
  (39, 0, 0, 0),
  ((391/10 : ℚ), 5, 2, (1/10 : ℚ)),
  (46, 5, 2, (1/10 : ℚ)),
  ((461/10 : ℚ), 0, 0, 0),
  (51, 0, 0, 0),
  ((511/10 : ℚ), 10, 5, (1/5 : ℚ)),
  (56, 10, 5, (1/5 : ℚ)),
  ((561/10 : ℚ), 0, 0, 0),
  (65, 0, 0, 0),
  ((651/10 : ℚ), 10, 5, (1/5 : ℚ)),
  (69, 10, 5, (1/5 : ℚ)),
  ((691/10 : ℚ), 0, 0, 0),
  (78, 0, 0, 0),
  ((781/10 : ℚ), 10, 5, (1/5 : ℚ)),
  (82, 10, 5, (1/5 : ℚ)),
  ((821/10 : ℚ), 0, 0, 0),
  (88, 0, 0, 0),
  (90, 5, 2, (1/10 : ℚ)),
  (114, 5, 2, (1/10 : ℚ)),
  ((1141/10 : ℚ), 0, 0, 0),
  (116, 0, 0, 0),
  ((243/2 : ℚ), 0, 0, 0),
  ((247/2 : ℚ), 5, 2, (1/10 : ℚ)),
  ((251/2 : ℚ), 0, 0, 0),
  ((261/2 : ℚ), 0, 0, 0),
  ((265/2 : ℚ), 5, 2, (1/10 : ℚ)),
  ((269/2 : ℚ), 0, 0, 0),
  (141, 0, 0, 0),
  ((1411/10 : ℚ), 10, 5, (1/5 : ℚ)),
  (145, 10, 5, (1/5 : ℚ)),
  ((1451/10 : ℚ), 0, 0, 0),
  (150, 0, 0, 0),
  (151, 10, 5, (1/5 : ℚ)),
  (155, 10, 5, (1/5 : ℚ)),
  (156, 5, 2, (1/10 : ℚ)),
  (157, 10, 5, (1/5 : ℚ)),
  (161, 10, 5, (1/5 : ℚ)),
  (162, 0, 0, 0),
  (165, 0, 0, 0),
  (166, 5, 2, (1/10 : ℚ)),
  (169, 5, 2, (1/10 : ℚ)),
  ((1691/10 : ℚ), 10, 5, (1/5 : ℚ)),
  (171, 10, 5, (1/5 : ℚ)),
  (172, 0, 0, 0),
  (173, 0, 0, 0),
  ((347/2 : ℚ), 10, 5, (1/5 : ℚ)),
  (174, 0, 0, 0),
  (181, 0, 0, 0),
  ((1811/10 : ℚ), 15, 8, (2/5 : ℚ)),
  ((367/2 : ℚ), 15, 8, (2/5 : ℚ)),
  ((918/5 : ℚ), 0, 0, 0),
  (186, 0, 0, 0),
  ((1861/10 : ℚ), 10, 5, (1/5 : ℚ)),
  (189, 10, 5, (1/5 : ℚ)),
  ((1891/10 : ℚ), 0, 0, 0),
  (190, 0, 0, 0),
  ((1901/10 : ℚ), 5, 2, (1/10 : ℚ)),
  (193, 5, 2, (1/10 : ℚ)),
  ((1931/10 : ℚ), 0, 0, 0),
  (196, 0, 0, 0),
  (198, 8, 4, (1/10 : ℚ)),
  (204, 8, 4, (1/10 : ℚ)),
  (206, 0, 0, 0),
  (208, 0, 0, 0),
  (210, 10, 5, (1/5 : ℚ)),
  (222, 10, 5, (1/5 : ℚ)),
  (224, 0, 0, 0),
  (226, 5, 2, (1/10 : ℚ)),
  (227, 12, 6, (3/10 : ℚ)),
  (232, 12, 6, (3/10 : ℚ)),
  (234, 0, 0, 0),
  (237, 0, 0, 0),
  (238, 8, 4, (1/10 : ℚ)),
  (251, 8, 4, (1/10 : ℚ)),
  (252, 0, 0, 0),
  (260, 0, 0, 0),
  (263, 15, 8, (2/5 : ℚ)),
  (270, 15, 8, (2/5 : ℚ)),
  (273, 5, 2, (1/10 : ℚ)),
  (338, 5, 2, (1/10 : ℚ)),
  (341, 0, 0, 0),
  (350, 0, 0, 0)]

/-- The `'simple'` profile table (time, BIS, MAP, CO). -/
def simpleTable : List (ℚ × ℚ × ℚ × ℚ) := [
  (0, 0, 0, 0),
  ((199/10 : ℚ), 0, 0, 0),
  (20, 20, 5, (3/10 : ℚ)),
  (23, 20, 10, (3/5 : ℚ)),
  (24, 15, 10, (3/5 : ℚ)),
  (26, (25/2 : ℚ), 6, (2/5 : ℚ)),
  (30, (21/2 : ℚ), 4, (3/10 : ℚ)),
  (37, 10, 4, (3/10 : ℚ)),
  (40, 4, 2, (1/10 : ℚ)),
  (45, (1/2 : ℚ), (1/10 : ℚ), (1/100 : ℚ)),
  (50, 0, 0, 0)]

/-- The `'step'` profile table, built from `start_step` and `end_step`
(seconds, converted to minutes). -/
def stepTable (start_step end_step : ℚ) : List (ℚ × ℚ × ℚ × ℚ) := [
  (0, 0, 0, 0),
  (start_step / 60 - (1/100 : ℚ), 0, 0, 0),
  (start_step / 60, 10, 5, (3/10 : ℚ)),
  (end_step / 60 - (1/100 : ℚ), 10, 5, (3/10 : ℚ)),
  (end_step / 60, 0, 0, 0),
  (30, 0, 0, 0)]

/-- The lookup table selected by `compute_disturbances` for each profile
(empty for `'null'`, which returns early). -/
def distTable : DistProfile → ℚ → ℚ → List (ℚ × ℚ × ℚ × ℚ)
  | DistProfile.realistic, _, _ => realisticTable
  | DistProfile.realistic2, _, _ => realistic2Table
  | DistProfile.liverTransplantation, _, _ => liverTable
  | DistProfile.simple, _, _ => simpleTable
  | DistProfile.step, s, e => stepTable s e
  | DistProfile.null, _, _ => []

/-- Embedding of `compute_disturbances(time, dist_profil, start_step,
end_step)`: three `np.interp` lookups of `time/60` against the columns of the
selected table; the `'null'` profile returns `[0, 0, 0]` directly. -/
def compute_disturbances (time : ℚ) (dist_profil : DistProfile)
    (start_step end_step : ℚ) : ℚ × ℚ × ℚ :=
  match dist_profil with
  | DistProfile.null => (0, 0, 0)
  | _ =>
    let tbl := distTable dist_profil start_step end_step
    (interp1 (tbl.map fun r => (r.1, r.2.1)) (time / 60),
     interp1 (tbl.map fun r => (r.1, r.2.2.1)) (time / 60),
     interp1 (tbl.map fun r => (r.1, r.2.2.2)) (time / 60))

/-- Last time point (minutes) of a profile table, `0` for the empty table. -/
def tableLastTime (p : DistProfile) (start_step end_step : ℚ) : ℚ :=
  (((distTable p start_step end_step).getLast?).map Prod.fst).getD 0

/-!
## Theorems

Helper lemmas first, then one theorem per claim (with a witness or
counterexample where required).
-/

/-- If the cubic has a unique positive real root, the selection loop of
`inverse_hill` returns it. -/
lemma first_pos_real_root_eq (b c d r : ℝ) (hr : 0 < r) (hroot : cubic b c d r = 0)
    (huniq : ∀ x, 0 < x → cubic b c d x = 0 → x = r) :
    first_pos_real_root b c d = r := by
  have hex : ∃ x, 0 < x ∧ cubic b c d x = 0 := ⟨r, hr, hroot⟩
  unfold first_pos_real_root
  rw [dif_pos hex]
  exact huniq _ hex.choose_spec.1 hex.choose_spec.2

/-- If the cubic has no positive real root, the selection loop of
`inverse_hill` leaves `real_root = 0`. -/
lemma first_pos_real_root_zero (b c d : ℝ)
    (h : ¬∃ x, 0 < x ∧ cubic b c d x = 0) :
    first_pos_real_root b c d = 0 := by
  unfold first_pos_real_root
  rw [dif_neg h]

/-- C5: `output_function` returns `[resistance, SV, HR, MAP, CO]` where the
published stroke volume is the raw sum `x[1]+x[3]` corrected by the
heart-rate-dependent logarithmic interaction factor, MAP is the product
resistance × apparent stroke volume × apparent heart rate, and CO is
apparent heart rate × apparent stroke volume / 1000. -/
theorem C5_output_function (m : HemoSuParams) (x : Fin 5 → ℝ) :
    output_function m x =
      ![x 0,
        (x 1 + x 3) * (1 - m.hr_sv * Real.log ((x 2 + x 4) / m.abase_hr)),
        x 2 + x 4,
        x 0 * ((x 1 + x 3) * (1 - m.hr_sv * Real.log ((x 2 + x 4) / m.abase_hr)))
          * (x 2 + x 4),
        (x 2 + x 4) * ((x 1 + x 3) * (1 - m.hr_sv * Real.log ((x 2 + x 4) / m.abase_hr)))
          / 1000] := rfl

/-- C10: after `initialized_at_given_input(u_propo, u_remi, u_nore)` both the
remifentanil and the norepinephrine PK state vectors have every component
equal to `u_nore` times the norepinephrine DC gain (the stored remifentanil
equilibrium concentration having been overwritten, line 534), so both are
independent of the `u_remi` argument. -/
theorem C10_init_remi_nore_states (st : PatientPK) (u_propo u_remi u_remi2 u_nore : ℝ) :
    (initialized_at_given_input st u_propo u_remi u_nore).remi_x
        = List.replicate 5 (u_nore * st.dcgain_nore)
      ∧ (initialized_at_given_input st u_propo u_remi u_nore).nore_x
        = List.replicate 1 (u_nore * st.dcgain_nore)
      ∧ (initialized_at_given_input st u_propo u_remi u_nore).c_blood_remi_eq
        = u_nore * st.dcgain_nore
      ∧ (initialized_at_given_input st u_propo u_remi u_nore).remi_x
        = (initialized_at_given_input st u_propo u_remi2 u_nore).remi_x
      ∧ (initialized_at_given_input st u_propo u_remi u_nore).nore_x
        = (initialized_at_given_input st u_propo u_remi2 u_nore).nore_x :=
  ⟨rfl, rfl, rfl, rfl, rfl⟩

/-- C2: evaluation of `initialized_at_given_input` at equilibrium rates
`u_propo = 1`, `u_remi = 2`, `u_nore = 1/2`: the remifentanil PK state is
filled with the norepinephrine steady-state concentration instead of the
remifentanil one, so the simulation does not start at the equilibrium that
`find_equilibrium` solved for and one step cannot reproduce the targets. -/
theorem C2_init_not_at_equilibrium :
    (initialized_at_given_input examplePK 1 2 (1 / 2)).remi_x
        = List.replicate 5 ((1 / 2) * examplePK.dcgain_nore)
      ∧ (1 / 2) * examplePK.dcgain_nore ≠ 2 * examplePK.dcgain_remi := by
  refine ⟨rfl, ?_⟩
  show (1 / 2 : ℝ) * examplePK.dcgain_nore ≠ 2 * examplePK.dcgain_remi
  have h1 : examplePK.dcgain_nore = 1 := rfl
  have h2 : examplePK.dcgain_remi = 1 := rfl
  rw [h1, h2]
  norm_num

/-- C7 counterexample: the initial guess of the `find_equilibrium`
optimization problem is not the point `(c50p, c50r)` of the BIS model. -/
theorem C7_x0_counterexample :
    (find_equilibrium_nlp bouillonBIS bouillonTOL 50 0.9).x0
      ≠ (bouillonBIS.c50p, bouillonBIS.c50r) := by
  intro h
  have h2 := congrArg Prod.snd h
  have hc : (find_equilibrium_nlp bouillonBIS bouillonTOL 50 0.9).x0.2
      = (19.3 : ℝ) / 2.5 := rfl
  have hr : bouillonBIS.c50r = (19.3 : ℝ) := rfl
  rw [hc, hr] at h2
  norm_num at h2

/-- C7 amended: the problem built by `find_equilibrium` agrees with the
specification's problem (same objective
`(BIS-target)^2/100^2 + (TOL-target)^2` and box `[0,50]^2`) except that the
initial guess is `(c50p, c50r/2.5)` rather than `(c50p, c50r)`. -/
theorem C7_nlp_shape (p : BISParams) (q : TOLParams) (bis_target tol_target : ℝ) :
    find_equilibrium_nlp p q bis_target tol_target
      = { spec_equilibrium_nlp p q bis_target tol_target with
          x0 := (p.c50p, p.c50r / 2.5) } := rfl

/-- The instance update performed by `compute_bis`: only `gamma` can change,
and only in the Eleveld no-interaction branch, as a function of whether the
propofol concentration is below its C50. -/
lemma compute_bis_state_params (p : BISParams) (cp cr : ℝ) :
    (compute_bis_state p cp cr).1 =
      { p with gamma :=
          if p.c50r = 0 ∧ p.isEleveld = true then
            (if cp ≤ p.c50p then 1.89 else 1.47)
          else p.gamma } := by
  obtain ⟨ie, c50p, c50r, gamma, beta, E0, Emax⟩ := p
  unfold compute_bis_state
  by_cases h : c50r = 0
  · by_cases he : ie = true
    · by_cases hc : cp ≤ c50p <;> simp [h, he, hc]
    · have hf : ie = false := by simpa using he
      subst hf
      simp [h]
  · simp [h]

/-- C8 counterexample: on the Eleveld model (age 35, `gamma = 1.89` as
constructed) a call `compute_bis(4, 0)` mutates the stored `gamma`
attribute, so `compute_bis` is not referentially transparent. -/
theorem C8_counterexample : (compute_bis_state (eleveldBIS 35) 4 0).1 ≠ eleveldBIS 35 := by
  intro heq
  have hc50 : (eleveldBIS 35).c50p = 3.08 := by
    show 3.08 * Real.exp (-0.00635 * ((35 : ℝ) - 35)) = 3.08
    norm_num
  have h1 : (compute_bis_state (eleveldBIS 35) 4 0).1.gamma = 1.47 := by
    rw [compute_bis_state_params]
    have hc : ¬((4 : ℝ) ≤ (eleveldBIS 35).c50p) := by rw [hc50]; norm_num
    have h0 : (eleveldBIS 35).c50r = 0 := rfl
    have h2 : (eleveldBIS 35).isEleveld = true := rfl
    simp [h0, h2, hc]
  rw [heq] at h1
  have h3 : (eleveldBIS 35).gamma = 1.89 := rfl
  rw [h3] at h1
  norm_num at h1

/-- C8 amended: `compute_bis` leaves every attribute of the model unchanged
except `gamma`, which in the Eleveld no-interaction regime is reassigned as a
pure function of the propofol concentration (1.89 below C50p, 1.47 above);
for the other parameterizations the instance is unchanged. -/
theorem C8_gamma_regime_update (p : BISParams) (cp cr : ℝ) :
    (compute_bis_state p cp cr).1 =
      { p with gamma :=
          if p.c50r = 0 ∧ p.isEleveld = true then
            (if cp ≤ p.c50p then 1.89 else 1.47)
          else p.gamma } :=
  compute_bis_state_params p cp cr

/-- A step keeps `flag_nore_used` set. -/
lemma hemo_step_nore_mono (f : HemoFlags) (a b : ℚ) (h : f.flag_nore_used = true) :
    (hemo_step f a b).1.flag_nore_used = true := by
  unfold hemo_step
  split_ifs <;> simp [h]

/-- A step keeps `flag_blood_loss` set. -/
lemma hemo_step_blood_mono (f : HemoFlags) (a b : ℚ) (h : f.flag_blood_loss = true) :
    (hemo_step f a b).1.flag_blood_loss = true := by
  unfold hemo_step
  split_ifs <;> simp [h]

/-- A step preserves mutual exclusion of the two flags. -/
lemma hemo_step_excl (f : HemoFlags) (a b : ℚ)
    (h : ¬(f.flag_nore_used = true ∧ f.flag_blood_loss = true)) :
    ¬((hemo_step f a b).1.flag_nore_used = true
        ∧ (hemo_step f a b).1.flag_blood_loss = true) := by
  unfold hemo_step
  split_ifs with h1 h2 <;> simp_all

/-- With the norepinephrine flag set and the blood-loss flag clear, a step
runs the norepinephrine-coupled branch, keeps the flag, and warns exactly
when a blood-loss request conflicts. -/
lemma hemo_step_nore_branch (f : HemoFlags) (a b : ℚ)
    (hn : f.flag_nore_used = true) (hb : f.flag_blood_loss = false) :
    hemo_step f a b = ({ f with flag_nore_used := true },
      HemoMode.noreCoupled, decide (b ≠ 1)) := by
  unfold hemo_step
  rw [if_pos ⟨Or.inl hn, hb⟩]

/-- A positive norepinephrine concentration with the blood-loss flag clear
runs the norepinephrine-coupled branch and latches the flag. -/
lemma hemo_step_nore_start (f : HemoFlags) (a b : ℚ)
    (ha : 0 < a) (hb : f.flag_blood_loss = false) :
    hemo_step f a b = ({ f with flag_nore_used := true },
      HemoMode.noreCoupled, decide (b ≠ 1)) := by
  unfold hemo_step
  rw [if_pos ⟨Or.inr ha, hb⟩]

/-- With the blood-loss flag set and the norepinephrine flag clear, a step
runs the blood-loss branch and warns exactly when norepinephrine is requested. -/
lemma hemo_step_blood_branch (f : HemoFlags) (a b : ℚ)
    (hb : f.flag_blood_loss = true) (hn : f.flag_nore_used = false) :
    hemo_step f a b = ({ f with flag_blood_loss := true },
      HemoMode.bloodLossCoupled, decide (0 < a)) := by
  unfold hemo_step
  rw [if_neg (by simp [hb]), if_pos ⟨Or.inr hb, hn⟩]

/-- Flag monotonicity along a run. -/
lemma hemoFlagsAt_nore_mono (u : ℕ → ℚ × ℚ) {n m : ℕ} (h : n ≤ m)
    (hn : (hemoFlagsAt u n).flag_nore_used = true) :
    (hemoFlagsAt u m).flag_nore_used = true := by
  induction m, h using Nat.le_induction with
  | base => exact hn
  | succ k hk ih => exact hemo_step_nore_mono _ _ _ ih

/-- Blood-loss flag monotonicity along a run. -/
lemma hemoFlagsAt_blood_mono (u : ℕ → ℚ × ℚ) {n m : ℕ} (h : n ≤ m)
    (hn : (hemoFlagsAt u n).flag_blood_loss = true) :
    (hemoFlagsAt u m).flag_blood_loss = true := by
  induction m, h using Nat.le_induction with
  | base => exact hn
  | succ k hk ih => exact hemo_step_blood_mono _ _ _ ih

/-- Mutual exclusion holds in every reachable flag state. -/
lemma hemoFlagsAt_excl (u : ℕ → ℚ × ℚ) (n : ℕ) :
    ¬((hemoFlagsAt u n).flag_nore_used = true
        ∧ (hemoFlagsAt u n).flag_blood_loss = true) := by
  induction n with
  | zero => simp [hemoFlagsAt, initHemoFlags]
  | succ k ih => exact hemo_step_excl _ _ _ ih

/-- C4: starting from a fresh `Hemo_meca_PD_model`, (i) each of
`flag_nore_used` and `flag_blood_loss`, once set, stays set at every later
step; (ii) the two flags are never simultaneously true; (iii) a step taken
with a positive norepinephrine concentration while blood loss is not latched
runs the norepinephrine-coupled branch at that step and at every later step
(whatever the later norepinephrine inputs are); (iv) norepinephrine requested
while blood loss is latched warns and the step keeps the blood-loss branch,
and a blood-loss request (`v_ratio ≠ 1`) while norepinephrine is latched
warns and the step keeps the norepinephrine-coupled branch. -/
theorem C4_feedback_mode_latch (u : ℕ → ℚ × ℚ) (n m : ℕ) (hnm : n ≤ m) :
    ((hemoFlagsAt u n).flag_nore_used = true →
        (hemoFlagsAt u m).flag_nore_used = true)
    ∧ ((hemoFlagsAt u n).flag_blood_loss = true →
        (hemoFlagsAt u m).flag_blood_loss = true)
    ∧ ¬((hemoFlagsAt u m).flag_nore_used = true
        ∧ (hemoFlagsAt u m).flag_blood_loss = true)
    ∧ (0 < (u n).1 → (hemoFlagsAt u n).flag_blood_loss = false →
        hemoModeAt u n = HemoMode.noreCoupled
          ∧ hemoModeAt u m = HemoMode.noreCoupled)
    ∧ ((hemoFlagsAt u m).flag_blood_loss = true → 0 < (u m).1 →
        hemoModeAt u m = HemoMode.bloodLossCoupled ∧ hemoWarnAt u m = true)
    ∧ ((hemoFlagsAt u m).flag_nore_used = true → (u m).2 ≠ 1 →
        hemoModeAt u m = HemoMode.noreCoupled ∧ hemoWarnAt u m = true) := by
  refine ⟨fun h => hemoFlagsAt_nore_mono u hnm h,
          fun h => hemoFlagsAt_blood_mono u hnm h,
          hemoFlagsAt_excl u m, ?_, ?_, ?_⟩
  · intro ha hb
    have hstepn := hemo_step_nore_start (hemoFlagsAt u n) (u n).1 (u n).2 ha hb
    have hmoden : hemoModeAt u n = HemoMode.noreCoupled := by
      unfold hemoModeAt
      rw [hstepn]
    refine ⟨hmoden, ?_⟩
    rcases Nat.eq_or_lt_of_le hnm with rfl | hlt
    · exact hmoden
    · have hn1 : (hemoFlagsAt u (n + 1)).flag_nore_used = true := by
        show (hemo_step (hemoFlagsAt u n) (u n).1 (u n).2).1.flag_nore_used = true
        rw [hstepn]
      have hm : (hemoFlagsAt u m).flag_nore_used = true :=
        hemoFlagsAt_nore_mono u (Nat.succ_le_of_lt hlt) hn1
      have hbm : (hemoFlagsAt u m).flag_blood_loss = false := by
        rcases Bool.eq_false_or_eq_true (hemoFlagsAt u m).flag_blood_loss with h | h
        · exact absurd ⟨hm, h⟩ (hemoFlagsAt_excl u m)
        · exact h
      unfold hemoModeAt
      rw [hemo_step_nore_branch _ _ _ hm hbm]
  · intro hb ha
    have hn : (hemoFlagsAt u m).flag_nore_used = false := by
      rcases Bool.eq_false_or_eq_true (hemoFlagsAt u m).flag_nore_used with h | h
      · exact absurd ⟨h, hb⟩ (hemoFlagsAt_excl u m)
      · exact h
    have hstep := hemo_step_blood_branch (hemoFlagsAt u m) (u m).1 (u m).2 hb hn
    constructor
    · unfold hemoModeAt; rw [hstep]
    · unfold hemoWarnAt; rw [hstep]; simpa using ha
  · intro hnore hv
    have hbm : (hemoFlagsAt u m).flag_blood_loss = false := by
      rcases Bool.eq_false_or_eq_true (hemoFlagsAt u m).flag_blood_loss with h | h
      · exact absurd ⟨hnore, h⟩ (hemoFlagsAt_excl u m)
      · exact h
    have hstep := hemo_step_nore_branch (hemoFlagsAt u m) (u m).1 (u m).2 hnore hbm
    constructor
    · unfold hemoModeAt; rw [hstep]
    · unfold hemoWarnAt; rw [hstep]; simpa using hv

/-- C4 witness: a run that injects norepinephrine at step 0 is in the
norepinephrine-coupled mode at step 0 and still at step 3. -/
theorem C4_witness :
    hemoModeAt (fun _ => (1, 1)) 0 = HemoMode.noreCoupled
      ∧ hemoModeAt (fun _ => (1, 1)) 3 = HemoMode.noreCoupled := by
  have h := C4_feedback_mode_latch (fun _ => (1, 1)) 0 3 (by norm_num)
  exact h.2.2.2.1 (by norm_num) rfl

/-- C6: `full_sim` (i) fails with the no-input error when all three series
are missing and, whatever simulation `kernel` runs on validated inputs,
(ii) every validation failure leaves the patient state untouched; (iii) any
two provided series of unequal lengths produce the length-mismatch error;
(iv) on success the three series have equal lengths, each missing series was
filled with zeros of that length, and each provided series is passed through
unchanged. -/
theorem C6_full_sim_validation
    (kernel : PatientSimState → List ℚ × List ℚ × List ℚ → PatientSimState × List ℚ)
    (st : PatientSimState) (u_propo u_remi u_nore : Option (List ℚ)) :
    (u_propo = none ∧ u_remi = none ∧ u_nore = none →
      full_sim_model kernel st u_propo u_remi u_nore
        = (st, Except.error SimInputError.noInputGiven))
    ∧ (∀ e, fill_inputs u_propo u_remi u_nore = Except.error e →
        full_sim_model kernel st u_propo u_remi u_nore = (st, Except.error e))
    ∧ (∀ a b, u_propo = some a → u_remi = some b → a.length ≠ b.length →
        fill_inputs u_propo u_remi u_nore = Except.error SimInputError.lengthMismatch)
    ∧ (∀ b c, u_remi = some b → u_nore = some c → b.length ≠ c.length →
        fill_inputs u_propo u_remi u_nore = Except.error SimInputError.lengthMismatch)
    ∧ (∀ a c, u_propo = some a → u_nore = some c → a.length ≠ c.length →
        fill_inputs u_propo u_remi u_nore = Except.error SimInputError.lengthMismatch)
    ∧ (∀ a b c, fill_inputs u_propo u_remi u_nore = Except.ok (a, b, c) →
        a.length = b.length ∧ b.length = c.length
          ∧ (u_propo = none → a = List.replicate a.length 0)
          ∧ (u_remi = none → b = List.replicate b.length 0)
          ∧ (u_nore = none → c = List.replicate c.length 0)
          ∧ (∀ l, u_propo = some l → a = l)
          ∧ (∀ l, u_remi = some l → b = l)
          ∧ (∀ l, u_nore = some l → c = l)) := by
  have herr : ∀ e, fill_inputs u_propo u_remi u_nore = Except.error e →
      full_sim_model kernel st u_propo u_remi u_nore = (st, Except.error e) := by
    intro e he
    unfold full_sim_model
    rw [he]
  refine ⟨?_, herr, ?_, ?_, ?_, ?_⟩
  · rintro ⟨rfl, rfl, rfl⟩
    exact herr _ rfl
  · rintro a b rfl rfl hab
    rcases u_nore with _ | c
    · simp only [fill_inputs, Option.getD_some, Option.getD_none, reduceCtorEq,
        false_and, and_false, if_false]
      rw [if_neg]
      rintro ⟨h1, -⟩
      exact hab h1
    · simp only [fill_inputs, Option.getD_some, reduceCtorEq, false_and, if_false]
      rw [if_neg]
      rintro ⟨h1, -⟩
      exact hab h1
  · rintro b c rfl rfl hbc
    rcases u_propo with _ | a
    · simp only [fill_inputs, Option.getD_some, Option.getD_none, reduceCtorEq,
        false_and, and_false, if_false]
      rw [if_neg]
      rintro ⟨-, h2⟩
      exact hbc h2
    · simp only [fill_inputs, Option.getD_some, reduceCtorEq, false_and, if_false]
      rw [if_neg]
      rintro ⟨-, h2⟩
      exact hbc h2
  · rintro a c rfl rfl hac
    rcases u_remi with _ | b
    · simp only [fill_inputs, Option.getD_some, Option.getD_none, reduceCtorEq,
        false_and, and_false, if_false]
      rw [if_neg]
      rintro ⟨-, h2⟩
      rw [List.length_replicate] at h2
      exact hac h2
    · simp only [fill_inputs, Option.getD_some, reduceCtorEq, false_and, if_false]
      rw [if_neg]
      rintro ⟨h1, h2⟩
      exact hac (h1.trans h2)
  · rintro a b c hok
    clear herr
    rcases u_propo with _ | a0 <;> rcases u_remi with _ | b0 <;> rcases u_nore with _ | c0
    · unfold fill_inputs at hok
      rw [if_pos ⟨rfl, rfl, rfl⟩] at hok
      exact Except.noConfusion hok
    all_goals
      simp only [fill_inputs, Option.getD_some, Option.getD_none, reduceCtorEq,
        false_and, and_false, if_false] at hok
      split_ifs at hok with hlen
    case pos =>
      injection hok with h3
      rw [Prod.mk.injEq, Prod.mk.injEq] at h3
      obtain ⟨rfl, rfl, rfl⟩ := h3
      exact ⟨hlen.1, hlen.2, fun _ => by simp, fun _ => by simp,
        fun hx => Option.noConfusion hx, fun l hl => Option.noConfusion hl,
        fun l hl => Option.noConfusion hl, fun l hl => Option.some.inj hl⟩
    case pos =>
      injection hok with h3
      rw [Prod.mk.injEq, Prod.mk.injEq] at h3
      obtain ⟨rfl, rfl, rfl⟩ := h3
      exact ⟨hlen.1, hlen.2, fun _ => by simp, fun hx => Option.noConfusion hx,
        fun _ => by simp, fun l hl => Option.noConfusion hl,
        fun l hl => Option.some.inj hl, fun l hl => Option.noConfusion hl⟩
    case pos =>
      injection hok with h3
      rw [Prod.mk.injEq, Prod.mk.injEq] at h3
      obtain ⟨rfl, rfl, rfl⟩ := h3
      exact ⟨hlen.1, hlen.2, fun _ => by simp, fun hx => Option.noConfusion hx,
        fun hx => Option.noConfusion hx, fun l hl => Option.noConfusion hl,
        fun l hl => Option.some.inj hl, fun l hl => Option.some.inj hl⟩
    case pos =>
      injection hok with h3
      rw [Prod.mk.injEq, Prod.mk.injEq] at h3
      obtain ⟨rfl, rfl, rfl⟩ := h3
      exact ⟨hlen.1, rfl, fun hx => Option.noConfusion hx, fun _ => by simp,
        fun _ => by simp, fun l hl => Option.some.inj hl,
        fun l hl => Option.noConfusion hl, fun l hl => Option.noConfusion hl⟩
    case pos =>
      injection hok with h3
      rw [Prod.mk.injEq, Prod.mk.injEq] at h3
      obtain ⟨rfl, rfl, rfl⟩ := h3
      exact ⟨hlen.1, hlen.2, fun hx => Option.noConfusion hx, fun _ => by simp,
        fun hx => Option.noConfusion hx, fun l hl => Option.some.inj hl,
        fun l hl => Option.noConfusion hl, fun l hl => Option.some.inj hl⟩
    case pos =>
      injection hok with h3
      rw [Prod.mk.injEq, Prod.mk.injEq] at h3
      obtain ⟨rfl, rfl, rfl⟩ := h3
      exact ⟨hlen.1, hlen.2, fun hx => Option.noConfusion hx,
        fun hx => Option.noConfusion hx, fun _ => by simp,
        fun l hl => Option.some.inj hl, fun l hl => Option.some.inj hl,
        fun l hl => Option.noConfusion hl⟩
    case pos =>
      injection hok with h3
      rw [Prod.mk.injEq, Prod.mk.injEq] at h3
      obtain ⟨rfl, rfl, rfl⟩ := h3
      exact ⟨hlen.1, hlen.2, fun hx => Option.noConfusion hx,
        fun hx => Option.noConfusion hx, fun hx => Option.noConfusion hx,
        fun l hl => Option.some.inj hl, fun l hl => Option.some.inj hl,
        fun l hl => Option.some.inj hl⟩

/-- C6 witness: calling `full_sim` with no input series fails with the
no-input error and returns the patient state unchanged. -/
theorem C6_witness :
    full_sim_model (fun s t => (s, t.1)) exampleSimState none none none
      = (exampleSimState, Except.error SimInputError.noInputGiven) :=
  (C6_full_sim_validation (fun s t => (s, t.1)) exampleSimState none none none).1
    ⟨rfl, rfl, rfl⟩

/-- Clamping below the first sample point of `np.interp`. -/
lemma interp1_lt_head (q0 : ℚ × ℚ) (rest : List (ℚ × ℚ)) (x : ℚ) (h : x < q0.1) :
    interp1 (q0 :: rest) x = q0.2 := by
  obtain ⟨x0, y0⟩ := q0
  cases rest with
  | nil => rfl
  | cons q1 rest2 =>
    obtain ⟨x1, y1⟩ := q1
    unfold interp1
    rw [if_pos h]

/-- If every sample point lies strictly left of `x`, `np.interp` clamps to
the last sample value (`0` for the empty table). -/
lemma interp1_all_lt : ∀ (pts : List (ℚ × ℚ)) (x : ℚ), (∀ q ∈ pts, q.1 < x) →
    interp1 pts x = ((pts.getLast?).map Prod.snd).getD 0 := by
  intro pts
  induction pts with
  | nil => intro x _; rfl
  | cons q0 rest ih =>
    intro x h
    obtain ⟨x0, y0⟩ := q0
    cases rest with
    | nil => rfl
    | cons q1 rest2 =>
      obtain ⟨x1, y1⟩ := q1
      have h0 : x0 < x := h (x0, y0) (by simp)
      have h1 : x1 < x := h (x1, y1) (by simp)
      unfold interp1
      rw [if_neg (not_lt.mpr h0.le), if_neg (not_le.mpr h1)]
      rw [ih x (fun q hq => h q (List.mem_cons_of_mem _ hq))]
      rfl

/-- Out-of-range lookup of one table column yields its clamping value `0`. -/
lemma interp_col_oob (tbl : List (ℚ × ℚ)) (t L : ℚ)
    (hL : ∀ q ∈ tbl, q.1 ≤ L)
    (hlast : ((tbl.getLast?).map Prod.snd).getD 0 = 0)
    (hhead : ∃ rest, tbl = ((0 : ℚ), (0 : ℚ)) :: rest)
    (h : t < 0 ∨ 60 * L < t) :
    interp1 tbl (t / 60) = 0 := by
  rcases h with h | h
  · obtain ⟨rest, rfl⟩ := hhead
    exact interp1_lt_head _ _ _ (div_neg_of_neg_of_pos h (by norm_num))
  · have hx : L < t / 60 := by
      rw [lt_div_iff₀ (by norm_num : (0:ℚ) < 60)]
      linarith
    rw [interp1_all_lt tbl _ (fun q hq => lt_of_le_of_lt (hL q hq) hx), hlast]

set_option maxHeartbeats 1600000 in
/-- C9: for every supported disturbance profile (with the default
`start_step = 600`, `end_step = 1200` for the `'step'` profile), any time
before the table's first time point (`0` min, i.e. `time < 0`) or after its
last time point (table times in minutes, input time in seconds) yields the
disturbance vector `[0, 0, 0]`. -/
theorem C9_out_of_range (p : DistProfile) (t : ℚ)
    (h : t < 0 ∨ 60 * tableLastTime p 600 1200 < t) :
    compute_disturbances t p 600 1200 = (0, 0, 0) := by
  cases p with
  | null => rfl
  | realistic =>
    have hL : tableLastTime DistProfile.realistic 600 1200 = 113 / 2 := rfl
    rw [hL] at h
    simp only [compute_disturbances, distTable, Prod.mk.injEq]
    refine ⟨?_, ?_, ?_⟩ <;>
      exact interp_col_oob _ _ (113 / 2)
        (by norm_num [realisticTable, List.forall_mem_cons]) rfl ⟨_, rfl⟩ h
  | realistic2 =>
    have hL : tableLastTime DistProfile.realistic2 600 1200 = 100 := rfl
    rw [hL] at h
    simp only [compute_disturbances, distTable, Prod.mk.injEq]
    refine ⟨?_, ?_, ?_⟩ <;>
      exact interp_col_oob _ _ 100
        (by norm_num [realistic2Table, List.forall_mem_cons]) rfl ⟨_, rfl⟩ h
  | liverTransplantation =>
    have hL : tableLastTime DistProfile.liverTransplantation 600 1200 = 350 := rfl
    rw [hL] at h
    simp only [compute_disturbances, distTable, Prod.mk.injEq]
    refine ⟨?_, ?_, ?_⟩ <;>
      exact interp_col_oob _ _ 350
        (by norm_num [liverTable, List.forall_mem_cons]) rfl ⟨_, rfl⟩ h
  | simple =>
    have hL : tableLastTime DistProfile.simple 600 1200 = 50 := rfl
    rw [hL] at h
    simp only [compute_disturbances, distTable, Prod.mk.injEq]
    refine ⟨?_, ?_, ?_⟩ <;>
      exact interp_col_oob _ _ 50
        (by norm_num [simpleTable, List.forall_mem_cons]) rfl ⟨_, rfl⟩ h
  | step =>
    have hL : tableLastTime DistProfile.step 600 1200 = 30 := rfl
    rw [hL] at h
    simp only [compute_disturbances, distTable, Prod.mk.injEq]
    refine ⟨?_, ?_, ?_⟩ <;>
      exact interp_col_oob _ _ 30
        (by norm_num [stepTable, List.forall_mem_cons]) rfl ⟨_, rfl⟩ h

/-- Core Hill-inversion identity: with positive `c50p`, nonzero slope and
nonzero `Emax`, the closed-form inversion used by `inverse_hill` recovers the
concentration fed to `compute_bis` exactly. -/
lemma hill_inverse_exact (c50p gam E0 Emax cp : ℝ) (hc : 0 < c50p) (hg : gam ≠ 0)
    (hE : Emax ≠ 0) (hcp : 0 ≤ cp) :
    c50p * ((E0 - (E0 - Emax * (cp / c50p) ^ gam / (1 + (cp / c50p) ^ gam))) /
        (Emax - E0 + (E0 - Emax * (cp / c50p) ^ gam / (1 + (cp / c50p) ^ gam))))
      ^ (1 / gam) = cp := by
  have hI : (0 : ℝ) ≤ cp / c50p := div_nonneg hcp hc.le
  set y := (cp / c50p) ^ gam with hy
  have hy0 : 0 ≤ y := Real.rpow_nonneg hI gam
  have h1y : (0 : ℝ) < 1 + y := by linarith
  have h1yne : (1 + y) ≠ 0 := h1y.ne'
  have e1 : E0 - (E0 - Emax * y / (1 + y)) = Emax * y / (1 + y) := by ring
  have e2 : Emax - E0 + (E0 - Emax * y / (1 + y)) = Emax / (1 + y) := by
    field_simp
    ring
  rw [e1, e2]
  have e3 : Emax * y / (1 + y) / (Emax / (1 + y)) = y := by
    field_simp
  rw [e3, hy, ← Real.rpow_mul hI, mul_one_div_cancel hg, Real.rpow_one]
  field_simp

/-- The no-interaction, non-Eleveld branch of `compute_bis`. -/
lemma compute_bis_no_interaction (p : BISParams) (cp cr : ℝ)
    (h : p.c50r = 0) (he : p.isEleveld = false) :
    compute_bis_state p cp cr =
      (p, p.E0 - p.Emax * (cp / p.c50p) ^ p.gamma / (1 + (cp / p.c50p) ^ p.gamma)) := by
  unfold compute_bis_state
  rw [if_pos h]
  simp [he]

/-- The no-interaction, non-Eleveld branch of `inverse_hill`. -/
lemma inverse_hill_no_interaction (p : BISParams) (BIS cr : ℝ)
    (h : p.c50r = 0) (he : p.isEleveld = false) :
    inverse_hill_state p BIS cr =
      (p, p.c50p * ((p.E0 - BIS) / (p.Emax - p.E0 + BIS)) ^ (1 / p.gamma)) := by
  unfold inverse_hill_state
  rw [if_pos h]
  simp [he]

/-- The no-interaction Eleveld branch of `compute_bis` on a literal
parameter record (`c50r = 0`, `E0 = Emax = 93`): the slope is selected by
comparing the propofol concentration with `c50p`. -/
lemma compute_bis_eleveld_lit (g C cp cr : ℝ) :
    compute_bis_state ⟨true, C, 0, g, 0, 93, 93⟩ cp cr =
      (⟨true, C, 0, (if cp ≤ C then 1.89 else 1.47), 0, 93, 93⟩,
        93 - 93 * (cp / C) ^ (if cp ≤ C then (1.89 : ℝ) else 1.47)
          / (1 + (cp / C) ^ (if cp ≤ C then (1.89 : ℝ) else 1.47))) := by
  unfold compute_bis_state
  rw [if_pos rfl]
  by_cases hc : cp ≤ C <;> simp [hc]

/-- The no-interaction Eleveld branch of `inverse_hill` on a literal
parameter record: the slope is selected by comparing the BIS with the
half-effect value `E0 - Emax/2`. -/
lemma inverse_hill_eleveld_lit (g C BIS cr : ℝ) :
    inverse_hill_state ⟨true, C, 0, g, 0, 93, 93⟩ BIS cr =
      (⟨true, C, 0, (if BIS ≥ 93 - 93 / 2 then 1.89 else 1.47), 0, 93, 93⟩,
        C * ((93 - BIS) / (93 - 93 + BIS))
          ^ (1 / (if BIS ≥ (93 : ℝ) - 93 / 2 then (1.89 : ℝ) else 1.47))) := by
  unfold inverse_hill_state
  rw [if_pos rfl]
  by_cases hb : BIS ≥ (93 : ℝ) - 93 / 2 <;> simp [hb]

/-- Round trip for an Eleveld-style parameter record with arbitrary positive
`c50p`: the regime of the forward slope switch (`Cp ≤ C50p`) coincides with
the regime of the inverse slope switch (`BIS ≥ E0 - Emax/2`), and the
inversion is exact. -/
lemma roundtrip_eleveld_generic (C cp cr : ℝ) (hC : 0 < C) (hcp : 0 ≤ cp) :
    roundtrip (⟨true, C, 0, 1.89, 0, 93, 93⟩ : BISParams) cp cr = cp := by
  simp only [roundtrip, compute_bis_eleveld_lit]
  rw [inverse_hill_eleveld_lit]
  by_cases hcase : cp ≤ C
  · have hy0 : 0 ≤ (cp / C) ^ (1.89 : ℝ) :=
      Real.rpow_nonneg (div_nonneg hcp hC.le) _
    have h1y : (0 : ℝ) < 1 + (cp / C) ^ (1.89 : ℝ) := by linarith
    have hyle : (cp / C) ^ (1.89 : ℝ) ≤ 1 :=
      Real.rpow_le_one (div_nonneg hcp hC.le) ((div_le_one hC).mpr hcase) (by norm_num)
    rw [if_pos hcase]
    have hdec : (93 : ℝ) - 93 * (cp / C) ^ (1.89 : ℝ)
        / (1 + (cp / C) ^ (1.89 : ℝ)) ≥ 93 - 93 / 2 := by
      have h2 : (93 : ℝ) * (cp / C) ^ (1.89 : ℝ)
          / (1 + (cp / C) ^ (1.89 : ℝ)) ≤ 93 / 2 := by
        rw [div_le_div_iff₀ h1y (by norm_num)]
        nlinarith
      linarith
    rw [if_pos hdec]
    exact hill_inverse_exact C 1.89 93 93 cp hC (by norm_num) (by norm_num) hcp
  · have hlt : C < cp := lt_of_not_le hcase
    have hy0 : 0 ≤ (cp / C) ^ (1.47 : ℝ) :=
      Real.rpow_nonneg (div_nonneg hcp hC.le) _
    have h1y : (0 : ℝ) < 1 + (cp / C) ^ (1.47 : ℝ) := by linarith
    have hygt : 1 < (cp / C) ^ (1.47 : ℝ) := by
      rw [Real.one_lt_rpow_iff_of_pos (div_pos (hC.trans hlt) hC)]
      exact Or.inl ⟨(one_lt_div hC).mpr hlt, by norm_num⟩
    rw [if_neg hcase]
    have hdec : ¬((93 : ℝ) - 93 * (cp / C) ^ (1.47 : ℝ)
        / (1 + (cp / C) ^ (1.47 : ℝ)) ≥ 93 - 93 / 2) := by
      have h2 : (93 : ℝ) / 2 < 93 * (cp / C) ^ (1.47 : ℝ)
          / (1 + (cp / C) ^ (1.47 : ℝ)) := by
        rw [div_lt_div_iff₀ (by norm_num) h1y]
        nlinarith
      push_neg
      linarith
    rw [if_neg hdec]
    exact hill_inverse_exact C 1.47 93 93 cp hC (by norm_num) (by norm_num) hcp

/-- Round trip for the Eleveld parameterization at any age: exact. -/
lemma roundtrip_eleveld (age cp cr : ℝ) (hcp : 0 ≤ cp) :
    roundtrip (eleveldBIS age) cp cr = cp :=
  roundtrip_eleveld_generic (3.08 * Real.exp (-0.00635 * (age - 35))) cp cr
    (by positivity) hcp

/-- Round trip for the Vanluchene parameterization: exact. -/
lemma roundtrip_vanluchene (cp cr : ℝ) (hcp : 0 ≤ cp) :
    roundtrip vanlucheneBIS cp cr = cp := by
  simp only [roundtrip, compute_bis_no_interaction vanlucheneBIS cp cr rfl rfl]
  rw [inverse_hill_no_interaction _ _ _ rfl rfl]
  exact hill_inverse_exact _ _ _ _ _
    (by norm_num [vanlucheneBIS]) (by norm_num [vanlucheneBIS])
    (by norm_num [vanlucheneBIS]) hcp

/-- With `beta = 0` the inverse cubic factors as `(x + Yr)^2 (x - (temp - Yr))`. -/
lemma cubic_beta_zero_factor (ur s x : ℝ) :
    cubic (3 * ur - s) (3 * ur ^ (2 : ℕ) - 2 * ur * s)
      (ur ^ (3 : ℕ) - ur ^ (2 : ℕ) * s) x
      = (x + ur) ^ (2 : ℕ) * (x - (s - ur)) := by
  unfold cubic
  ring

/-- When `temp - Yr > 0` it is the unique positive real root of the cubic. -/
lemma pos_root_unique (ur s : ℝ) (hur : 0 ≤ ur) (h : 0 < s - ur) :
    first_pos_real_root (3 * ur - s) (3 * ur ^ (2 : ℕ) - 2 * ur * s)
      (ur ^ (3 : ℕ) - ur ^ (2 : ℕ) * s) = s - ur := by
  apply first_pos_real_root_eq _ _ _ _ h
  · rw [cubic_beta_zero_factor]
    ring
  · intro x hx hroot
    rw [cubic_beta_zero_factor] at hroot
    have hxu : 0 < x + ur := by linarith
    rcases mul_eq_zero.mp hroot with h1 | h2
    · exact absurd h1 (pow_ne_zero 2 hxu.ne')
    · linarith

/-- When `temp - Yr ≤ 0` the cubic has no positive real root. -/
lemma pos_root_none (ur s : ℝ) (hur : 0 ≤ ur) (h : s - ur ≤ 0) :
    first_pos_real_root (3 * ur - s) (3 * ur ^ (2 : ℕ) - 2 * ur * s)
      (ur ^ (3 : ℕ) - ur ^ (2 : ℕ) * s) = 0 := by
  apply first_pos_real_root_zero
  rintro ⟨x, hx, hroot⟩
  rw [cubic_beta_zero_factor] at hroot
  have hxu : 0 < x + ur := by linarith
  rcases mul_eq_zero.mp hroot with h1 | h2
  · exact absurd h1 (pow_ne_zero 2 hxu.ne')
  · linarith

/-- The Bouillon (interaction) branch of `compute_bis`: `beta = 0` collapses
`U_50` to `1`, so the potency is `up + ur`. -/
lemma compute_bis_bouillon (cp cr : ℝ) :
    compute_bis_state bouillonBIS cp cr =
      (bouillonBIS,
        97.4 - 97.4 * ((cp / 4.47 + cr / 19.3) ^ (1.43 : ℝ))
          / (1 + (cp / 4.47 + cr / 19.3) ^ (1.43 : ℝ))) := by
  unfold compute_bis_state
  rw [if_neg (by norm_num [bouillonBIS] : ¬bouillonBIS.c50r = 0)]
  simp only [bouillonBIS]
  norm_num

/-- The inverse cubic coefficients for the Bouillon model at a BIS value in
the range of `compute_bis`: `temp` recovers `up + ur` exactly. -/
lemma inverse_cubic_coeffs_bouillon (cp cr : ℝ) (hcp : 0 ≤ cp) (hcr : 0 ≤ cr) :
    inverse_cubic_coeffs bouillonBIS
      (97.4 - 97.4 * ((cp / 4.47 + cr / 19.3) ^ (1.43 : ℝ))
        / (1 + (cp / 4.47 + cr / 19.3) ^ (1.43 : ℝ))) cr
      = (3 * (cr / 19.3) - (cp / 4.47 + cr / 19.3),
         3 * (cr / 19.3) ^ (2 : ℕ) - 2 * (cr / 19.3) * (cp / 4.47 + cr / 19.3),
         (cr / 19.3) ^ (3 : ℕ) - (cr / 19.3) ^ (2 : ℕ) * (cp / 4.47 + cr / 19.3)) := by
  have hs0 : (0 : ℝ) ≤ cp / 4.47 + cr / 19.3 := by positivity
  set s := cp / 4.47 + cr / 19.3 with hs
  set y := s ^ (1.43 : ℝ) with hy
  have hy0 : 0 ≤ y := Real.rpow_nonneg hs0 _
  have h1y : (0 : ℝ) < 1 + y := by linarith
  unfold inverse_cubic_coeffs
  simp only [bouillonBIS]
  have h1yne : (1 + y) ≠ 0 := h1y.ne'
  have e1 : (97.4 : ℝ) - (97.4 - 97.4 * y / (1 + y)) = 97.4 * y / (1 + y) := by ring
  have hmax : max 0 ((97.4 : ℝ) * y / (1 + y)) = 97.4 * y / (1 + y) :=
    max_eq_right (by positivity)
  have e2 : (97.4 : ℝ) - 97.4 + (97.4 - 97.4 * y / (1 + y)) = 97.4 / (1 + y) := by
    field_simp
    ring
  have e3 : (97.4 : ℝ) * y / (1 + y) / (97.4 / (1 + y)) = y := by
    have h974 : (97.4 : ℝ) ≠ 0 := by norm_num
    field_simp
  have etemp : ((y : ℝ)) ^ (1 / (1.43 : ℝ)) = s := by
    rw [hy, ← Real.rpow_mul hs0, mul_one_div_cancel (by norm_num : (1.43 : ℝ) ≠ 0),
      Real.rpow_one]
  rw [e1, hmax, e2, e3, etemp]
  norm_num

/-- Round trip for the Bouillon parameterization: exact (via the unique
positive real root of the inverse cubic, or the zero default at `cp = 0`). -/
lemma roundtrip_bouillon (cp cr : ℝ) (hcp : 0 ≤ cp) (hcr : 0 ≤ cr) :
    roundtrip bouillonBIS cp cr = cp := by
  have hur : (0 : ℝ) ≤ cr / 19.3 := by positivity
  simp only [roundtrip, compute_bis_bouillon cp cr]
  unfold inverse_hill_state
  rw [if_neg (by norm_num [bouillonBIS] : ¬bouillonBIS.c50r = 0)]
  simp only [inverse_cubic_coeffs_bouillon cp cr hcp hcr]
  have hsub : (cp / 4.47 + cr / 19.3) - cr / 19.3 = cp / 4.47 := by ring
  rcases eq_or_lt_of_le hcp with hcp0 | hcppos
  · rw [pos_root_none _ _ hur (by rw [hsub, ← hcp0]; norm_num)]
    rw [← hcp0]
    norm_num
  · rw [pos_root_unique _ _ hur (by rw [hsub]; positivity), hsub]
    show cp / 4.47 * bouillonBIS.c50p = cp
    have : bouillonBIS.c50p = (4.47 : ℝ) := rfl
    rw [this]
    field_simp

/-- C1: for each of the three parameterizations ('Bouillon', 'Vanluchene',
'Eleveld' at any age), constructed without random perturbation, and all
concentrations `Cp, Cr ≥ 0`, `inverse_hill (compute_bis Cp Cr) Cr` recovers
`Cp` within `1e-3` (here exactly), the Eleveld regime switch being applied
consistently in both directions. -/
theorem C1_hill_roundtrip (p : BISParams)
    (hp : p = bouillonBIS ∨ p = vanlucheneBIS ∨ ∃ age, p = eleveldBIS age)
    (cp cr : ℝ) (hcp : 0 ≤ cp) (hcr : 0 ≤ cr) :
    |roundtrip p cp cr - cp| ≤ 1 / 1000 := by
  have hz : roundtrip p cp cr = cp := by
    rcases hp with rfl | rfl | ⟨age, rfl⟩
    · exact roundtrip_bouillon cp cr hcp hcr
    · exact roundtrip_vanluchene cp cr hcp
    · exact roundtrip_eleveld age cp cr hcp
  rw [hz, sub_self, abs_zero]
  norm_num

/-- C1 witness: the round trip at `Cp = 1, Cr = 2` on the Bouillon model. -/
theorem C1_witness : |roundtrip bouillonBIS 1 2 - 1| ≤ 1 / 1000 :=
  C1_hill_roundtrip bouillonBIS (Or.inl rfl) 1 2 (by norm_num) (by norm_num)

/-- The inverse cubic at `BIS = E0`, `c_es_remi = c50r` on the Bouillon model
has coefficients `(3, 3, 1)`. -/
lemma bouillon_coeffs_at_e0 :
    inverse_cubic_coeffs bouillonBIS 97.4 19.3 = (3, 3, 1) := by
  unfold inverse_cubic_coeffs
  simp only [bouillonBIS]
  have h1 : max 0 ((97.4 : ℝ) - 97.4) = 0 := by norm_num
  have h2 : ((0 : ℝ) / (97.4 - 97.4 + 97.4)) = 0 := by norm_num
  have h3 : ((0 : ℝ)) ^ (1 / (1.43 : ℝ)) = 0 :=
    Real.zero_rpow (by norm_num)
  rw [h1, h2, h3]
  norm_num

/-- The cubic `x^3 + 3x^2 + 3x + 1` has no positive real root. -/
lemma no_pos_root_at_e0 : ¬∃ x, 0 < x ∧ cubic 3 3 1 x = 0 := by
  rintro ⟨x, hx, hroot⟩
  unfold cubic at hroot
  nlinarith [pow_pos hx 3, pow_pos hx 2]

/-- C3 counterexample: at `BIS = E0 = 97.4`, `Cr = 19.3` (interaction case,
Bouillon model) the cubic has no positive real root, yet `inverse_hill`
returns the plain value `0` instead of signalling an error. -/
theorem C3_counterexample :
    (¬∃ x, 0 < x ∧ cubic (inverse_cubic_coeffs bouillonBIS 97.4 19.3).1
        (inverse_cubic_coeffs bouillonBIS 97.4 19.3).2.1
        (inverse_cubic_coeffs bouillonBIS 97.4 19.3).2.2 x = 0)
      ∧ (inverse_hill_state bouillonBIS 97.4 19.3).2 = 0 := by
  constructor
  · rw [bouillon_coeffs_at_e0]
    exact no_pos_root_at_e0
  · unfold inverse_hill_state
    rw [if_neg (by norm_num [bouillonBIS] : ¬bouillonBIS.c50r = 0)]
    simp only [bouillon_coeffs_at_e0]
    rw [first_pos_real_root_zero _ _ _ no_pos_root_at_e0, zero_mul]

/-- C3 amended: whenever the interaction-case cubic of `inverse_hill` has no
positive real root, the function returns `0` (the initialized `real_root`
default) as an ordinary value, so a caller cannot distinguish a zero
concentration from a failed inversion. -/
theorem C3_no_root_returns_zero (p : BISParams) (BIS c_es_remi : ℝ)
    (hc : p.c50r ≠ 0)
    (h : ¬∃ x, 0 < x ∧ cubic (inverse_cubic_coeffs p BIS c_es_remi).1
        (inverse_cubic_coeffs p BIS c_es_remi).2.1
        (inverse_cubic_coeffs p BIS c_es_remi).2.2 x = 0) :
    (inverse_hill_state p BIS c_es_remi).2 = 0 := by
  unfold inverse_hill_state
  rw [if_neg hc]
  show first_pos_real_root _ _ _ * p.c50p = 0
  rw [first_pos_real_root_zero _ _ _ h, zero_mul]

/-- C3 witness: the amended behavior at the concrete no-solution input. -/
theorem C3_witness : (inverse_hill_state bouillonBIS 97.4 19.3).2 = 0 :=
  C3_no_root_returns_zero bouillonBIS 97.4 19.3
    (by norm_num [bouillonBIS])
    (by rw [bouillon_coeffs_at_e0]; exact no_pos_root_at_e0)

/-- C9 witness: the `'realistic'` profile is zero before its table starts
and after its table ends (3600 s = 60 min > 56.5 min). -/
theorem C9_witness :
    compute_disturbances (-1) DistProfile.realistic 600 1200 = (0, 0, 0)
      ∧ compute_disturbances 3600 DistProfile.realistic 600 1200 = (0, 0, 0) :=
  ⟨C9_out_of_range DistProfile.realistic (-1) (Or.inl (by norm_num)),
   C9_out_of_range DistProfile.realistic 3600
     (Or.inr (by norm_num [tableLastTime, distTable, realisticTable]))⟩

end PAS
